import Mathlib

/-!
Shallow embedding of `src/build_poi_db.py`, the OSM feature extractor.
It covers the geometry reduction (`centroid_from_geom`), the two tag
classifiers (`classify`, `classify_poi` in the spec, and `classify_geo`),
the per-record import loop of `build_region`, and the multi-region driver
(`mainRun` / `mainExit` for the script's `main`).  Coordinates are embedded
as rationals, tag mappings as association lists with Python truthiness made
explicit, uncaught Python exceptions (ZeroDivisionError on an empty ring,
IndexError on a ring-less polygon, CalledProcessError raised by
`subprocess.run(check=True)`) as `Option`/`Except` failures, and SQLite
`INSERT OR IGNORE` on the integer primary key, including the auto-assigned
rowid for a NULL key, as `insertOrIgnore`.
-/

namespace BuildPoiDb

/-- Tag mapping of one feature, the `properties` object of an exported
GeoJSON record.  JSON object keys are unique; lookup is by key. -/
abbrev Props := List (String × String)

/-- Lookup `props.get(k)`: the value bound to key `k`, if any. -/
def getTag (props : Props) (k : String) : Option String :=
  (props.find? (fun p => p.1 == k)).map Prod.snd

/-- Python truthiness of an optional string: `None` and `""` are falsy,
every other string is truthy. -/
def pyTruthy : Option String → Bool
  | none => false
  | some s => !(s == "")

/-- Accumulator pass of a decimal natural-number parser. -/
def parseNatAux : List Char → Nat → Option Nat
  | [], acc => some acc
  | c :: cs, acc =>
    if c.isDigit then parseNatAux cs (acc * 10 + (c.toNat - 48)) else none

/-- Decimal integer parser with optional leading minus sign. -/
def parseInt (s : String) : Option Int :=
  match s.data with
  | [] => none
  | '-' :: cs =>
    if cs = [] then none else (parseNatAux cs 0).map (fun n => -(n : Int))
  | cs => (parseNatAux cs 0).map (fun n => (n : Int))

/-- Lookup `props.get("id")`.  The OSM id is an integer carried in the
exported properties; it is embedded here through its decimal string. -/
def getId (props : Props) : Option Int :=
  (getTag props "id").bind parseInt

/-- Character pass of Python `str.title()`: a letter that follows a
non-letter is uppercased, every other letter is lowercased, non-letters are
kept.  This is the ASCII fragment of the Python rule, which is all the
pipeline ever feeds it (`historic` values made of lowercase words). -/
def titleChars : Bool → List Char → List Char
  | _, [] => []
  | prevAlpha, c :: cs =>
    (if c.isAlpha then (if prevAlpha then c.toLower else c.toUpper) else c) ::
      titleChars c.isAlpha cs

/-- Python `s.title()`. -/
def pyTitle (s : String) : String := String.mk (titleChars false s.data)

/-- Python `s.replace("_", " ")`: the pattern is a single character, so the
replacement substitutes every underscore by a space. -/
def underscoreToSpace (s : String) : String :=
  String.mk (s.data.map (fun c => if c = '_' then ' ' else c))

/-- Geometry of an exported record.  GeoJSON stores vertices as
`(longitude, latitude)` pairs; `other` covers every geometry type the loop
skips (LineString, GeometryCollection, ...). -/
inductive Geom
  | point (lon lat : ℚ)
  | polygon (coordinates : List (List (ℚ × ℚ)))
  | multiPolygon (coordinates : List (List (List (ℚ × ℚ))))
  | other (geomType : String)
deriving DecidableEq

/-- Unweighted mean of the pooled vertices of `rings`, as in the tail of
`centroid_from_geom`: collect every `(lon, lat)` of every ring, then divide
the coordinate sums by the vertex count.  `none` embeds the uncaught
ZeroDivisionError the Python code raises when there is no vertex. -/
def ringMean (rings : List (List (ℚ × ℚ))) : Option (ℚ × ℚ) :=
  if rings.flatten.length = 0 then none
  else some ((rings.flatten.map Prod.fst).sum / (rings.flatten.length : ℚ),
             (rings.flatten.map Prod.snd).sum / (rings.flatten.length : ℚ))

/-- Translation of `centroid_from_geom`: for a Polygon the outer ring
`coordinates[0]` alone, for a MultiPolygon the outer ring `poly[0]` of every
constituent polygon, then the unweighted vertex mean, returned as
`(lon, lat)`.  `none` embeds the uncaught exceptions: IndexError when a
polygon has no ring at all, ZeroDivisionError when the pooled vertex list is
empty.  The function is only ever invoked on Polygon / MultiPolygon input. -/
def centroid_from_geom : Geom → Option (ℚ × ℚ)
  | Geom.polygon coords =>
    match coords with
    | [] => none
    | ring0 :: _ => ringMean [ring0]
  | Geom.multiPolygon polys =>
    match polys.mapM List.head? with
    | none => none
    | some outers => ringMean outers
  | _ => none

/-- Translation of `classify` (the spec's `classify_poi`): the exact
if-chain of the source, in source order — places first, then historic,
religion, food and drink, shops, tourism, leisure, nature.  Truthiness
checks (`if props.get("historic"):` and the like) use `pyTruthy`; under a
truthy guard the tag value is present, so `getD ""` never supplies its
default. -/
def classify (props : Props) : Option (Int × String) :=
  if getTag props "place" = some "city" then some (100, "city")
  else if getTag props "place" = some "town" then some (101, "town")
  else if getTag props "place" = some "village" then some (102, "village")
  else if getTag props "place" = some "hamlet" then some (103, "hamlet")
  else if getTag props "place" = some "suburb" then some (104, "suburb")
  else if getTag props "historic" = some "castle" then some (1, "castle")
  else if getTag props "historic" = some "abbey" ∨
      getTag props "historic" = some "monastery" then some (2, "abbey")
  else if pyTruthy (getTag props "historic") then
    some (7, (getTag props "historic").getD "")
  else if getTag props "amenity" = some "place_of_worship" then
    some (3, (getTag props "religion").getD "worship")
  else if getTag props "amenity" = some "cafe" then some (10, "cafe")
  else if getTag props "amenity" = some "pub" then some (11, "pub")
  else if getTag props "amenity" = some "restaurant" then some (12, "restaurant")
  else if getTag props "amenity" = some "fast_food" then some (13, "fast_food")
  else if getTag props "amenity" = some "bar" then some (14, "bar")
  else if pyTruthy (getTag props "shop") then
    some (20, (getTag props "shop").getD "")
  else if getTag props "tourism" = some "attraction" ∨
      getTag props "tourism" = some "museum" ∨
      getTag props "tourism" = some "viewpoint" then
    some (30, (getTag props "tourism").getD "")
  else if pyTruthy (getTag props "leisure") then
    some (40, (getTag props "leisure").getD "")
  else if getTag props "natural" = some "peak" then some (50, "peak")
  else if getTag props "man_made" = some "survey_point" then some (51, "trig_point")
  else none

/-- Translation of `classify_geo`. -/
def classify_geo (props : Props) : Option String :=
  if getTag props "place" = some "island" then some "island"
  else if getTag props "natural" = some "peak" then some "peak"
  else none

/-- Name derivation step of the loop body (lines 226-233 of the source):
start from `props.get("name")`; if that is falsy and `historic` is one of
`standing_stone` / `megalith` / `stone`, synthesize
`props["historic"].replace("_", " ").title()`; return `none` exactly when
the final value is falsy, which is the `if not name: continue` skip. -/
def nameStep (props : Props) : Option String :=
  if ¬ pyTruthy (getTag props "name") = true ∧
      (getTag props "historic" = some "standing_stone" ∨
       getTag props "historic" = some "megalith" ∨
       getTag props "historic" = some "stone") then
    some (pyTitle (underscoreToSpace ((getTag props "historic").getD "")))
  else getTag props "name"

/-- Skip gate `if not name: continue` applied to the value after the
synthesis step. -/
def deriveName (props : Props) : Option String :=
  if pyTruthy (nameStep props) then nameStep props else none

/-- Row of the `pois` table, in schema column order. -/
structure PoiRow where
  id : Int
  lat : ℚ
  lon : ℚ
  type : Int
  name : String
  subtype : String
  tags : Props
deriving DecidableEq

/-- Row of the `geo_features` table; `name` is a nullable column. -/
structure GeoRow where
  id : Int
  lat : ℚ
  lon : ℚ
  kind : String
  name : Option String
  tags : Props
deriving DecidableEq

/-- Row of the rtree tables `poi_index` / `geo_index`, in the column order
of the schema and of the `INSERT` statements: `(id, minLat, maxLat, minLon,
maxLon)`. -/
structure IdxRow where
  id : Int
  minLat : ℚ
  maxLat : ℚ
  minLon : ℚ
  maxLon : ℚ
deriving DecidableEq

/-- The four tables of one region database. -/
structure DB where
  pois : List PoiRow
  poi_index : List IdxRow
  geo_features : List GeoRow
  geo_index : List IdxRow
deriving DecidableEq

/-- The freshly recreated schema: `executescript(SCHEMA_SQL)` drops and
recreates all four tables, so every build starts empty. -/
def emptyDB : DB := ⟨[], [], [], []⟩

/-- State of the import loop: the open database plus the `imported`
counter. -/
structure LoopState where
  db : DB
  imported : Nat
deriving DecidableEq

/-- Loop state right after the schema script: empty tables, `imported = 0`. -/
def initState : LoopState := ⟨emptyDB, 0⟩

/-- Next auto-assigned integer key, as SQLite picks it for a NULL value in
an INTEGER PRIMARY KEY column (and for a NULL rtree id): one more than the
largest key in the table, and 1 for an empty table. -/
def nextAutoId (ids : List Int) : Int := ids.foldr max 0 + 1

/-- SQLite `INSERT OR IGNORE` keyed on an integer primary key column
`rowId`.  A present key that already occurs in the table is a primary-key
conflict and the insert is ignored; a NULL key (`none`) never conflicts and
is replaced by the auto-assigned rowid. -/
def insertOrIgnore {α : Type} (rowId : α → Int) : List α → Option Int → (Int → α) → List α
  | t, some i, mk => if i ∈ t.map rowId then t else t ++ [mk i]
  | t, none, mk => t ++ [mk (nextAutoId (t.map rowId))]

/-- The two inserts of the POI branch of the loop body: `pois` gets
`(osm_id, lat, lon, type, name, subtype, tags)`, `poi_index` gets
`(osm_id, lat, lat, lon, lon)`. -/
def insertPoiPair (db : DB) (oid : Option Int) (lat lon : ℚ) (ty : Int)
    (nm sub : String) (tags : Props) : DB :=
  { db with
    pois := insertOrIgnore PoiRow.id db.pois oid (fun i => ⟨i, lat, lon, ty, nm, sub, tags⟩),
    poi_index := insertOrIgnore IdxRow.id db.poi_index oid (fun i => ⟨i, lat, lat, lon, lon⟩) }

/-- The two inserts of the geo branch of the loop body: `geo_features` gets
`(osm_id, lat, lon, kind, name, tags)`, `geo_index` gets
`(osm_id, lat, lat, lon, lon)`. -/
def insertGeoPair (db : DB) (oid : Option Int) (lat lon : ℚ) (kind : String)
    (nm : Option String) (tags : Props) : DB :=
  { db with
    geo_features := insertOrIgnore GeoRow.id db.geo_features oid (fun i => ⟨i, lat, lon, kind, nm, tags⟩),
    geo_index := insertOrIgnore IdxRow.id db.geo_index oid (fun i => ⟨i, lat, lat, lon, lon⟩) }

/-- One exported GeoJSON feature record. -/
structure Record where
  geom : Geom
  props : Props
deriving DecidableEq

/-- Classification-and-store tail of the loop body, entered once `lon` /
`lat` are known: geo features first (insert into the geo pair, then
`continue`), otherwise the name gate, then `classify`, then the POI pair
inserts and `imported += 1`.  Records skipped by `continue` leave the state
unchanged. -/
def processClassified (s : LoopState) (props : Props) (lon lat : ℚ) : LoopState :=
  match classify_geo props with
  | some kind =>
    { s with db := insertGeoPair s.db (getId props) lat lon kind (getTag props "name") props }
  | none =>
    match deriveName props with
    | none => s
    | some name =>
      match classify props with
      | none => s
      | some (poi_type, subtype) =>
        { db := insertPoiPair s.db (getId props) lat lon poi_type name subtype props,
          imported := s.imported + 1 }

/-- One iteration of `for feat in data["features"]`: Point coordinates are
used verbatim, Polygon / MultiPolygon go through `centroid_from_geom`
(where `none`, an uncaught ZeroDivisionError / IndexError, aborts the whole
build), any other geometry type is `continue`d over. -/
def processRecord (s : LoopState) (feat : Record) : Option LoopState :=
  match feat.geom with
  | Geom.point lon lat => some (processClassified s feat.props lon lat)
  | Geom.polygon c =>
    match centroid_from_geom (Geom.polygon c) with
    | none => none
    | some (lon, lat) => some (processClassified s feat.props lon lat)
  | Geom.multiPolygon c =>
    match centroid_from_geom (Geom.multiPolygon c) with
    | none => none
    | some (lon, lat) => some (processClassified s feat.props lon lat)
  | Geom.other _ => some s

/-- The whole record loop; `none` propagates an uncaught per-record
exception, which in the Python source unwinds out of `build_region`. -/
def runLoop : LoopState → List Record → Option LoopState
  | s, [] => some s
  | s, r :: rs =>
    match processRecord s r with
    | none => none
    | some s2 => runLoop s2 rs

/-- External collaborator of one run: exit codes of the two `osmium`
invocations per region, and the feature records its export yields. -/
structure ExtractEnv where
  filterExit : String → Nat
  exportExit : String → Nat
  records : String → List Record

/-- Translation of the `run` helper: `subprocess.run(cmd, check=True)`
raises CalledProcessError exactly when the command exits nonzero. -/
def run (exitCode : Nat) : Except String Unit :=
  if exitCode = 0 then Except.ok () else Except.error "CalledProcessError"

/-- Translation of `build_region` for one region: the `osmium tags-filter`
and `osmium export` invocations (either failure unwinds, uncaught), then
the schema reset and the record loop.  On success it yields the committed
tables and the `imported` count the final summary line prints. -/
def build_region (env : ExtractEnv) (region : String) : Except String (DB × Nat) :=
  match run (env.filterExit region) with
  | Except.error e => Except.error e
  | Except.ok _ =>
    match run (env.exportExit region) with
    | Except.error e => Except.error e
    | Except.ok _ =>
      match runLoop initState (env.records region) with
      | none => Except.error "ZeroDivisionError"
      | some s => Except.ok (s.db, s.imported)

/-- The region loop of `main`: build each region in order, stopping at the
first uncaught exception.  The first component lists the completed regions
with their outputs; the second is the propagated error, if any. -/
def mainRun (env : ExtractEnv) : List String → List (String × (DB × Nat)) × Option String
  | [] => ([], none)
  | region :: rest =>
    match build_region env region with
    | Except.error e => ([], some e)
    | Except.ok out =>
      let r := mainRun env rest
      ((region, out) :: r.1, r.2)

/-- Process exit status of `main`: 1 via `sys.exit(1)` when no extract
files are found, 1 for an uncaught exception escaping the region loop, 0
otherwise. -/
def mainExit (env : ExtractEnv) (regions : List String) : Nat :=
  if regions = [] then 1
  else
    match (mainRun env regions).2 with
    | some _ => 1
    | none => 0

/-! Helper lemmas about the embedded operations. -/

/-- A name accepted by the name gate is never the empty string: the gate
returns its value only under a `pyTruthy` guard. -/
theorem deriveName_ne_empty {props : Props} {nm : String}
    (h : deriveName props = some nm) : nm ≠ "" := by
  unfold deriveName at h
  split at h
  · next htr =>
    rw [h] at htr
    intro he
    rw [he] at htr
    simp [pyTruthy] at htr
  · exact absurd h (by simp)

/-- Every row of an `insertOrIgnore` result is an old row or the freshly
built row. -/
theorem mem_insertOrIgnore {α : Type} (rowId : α → Int) (t : List α)
    (oid : Option Int) (mk : Int → α) {x : α}
    (hx : x ∈ insertOrIgnore rowId t oid mk) : x ∈ t ∨ ∃ i, x = mk i := by
  cases oid with
  | none =>
    simp only [insertOrIgnore] at hx
    rcases List.mem_append.mp hx with h | h
    · exact Or.inl h
    · exact Or.inr ⟨_, (List.mem_singleton.mp h)⟩
  | some i =>
    simp only [insertOrIgnore] at hx
    by_cases hm : i ∈ t.map rowId
    · rw [if_pos hm] at hx
      exact Or.inl hx
    · rw [if_neg hm] at hx
      rcases List.mem_append.mp hx with h | h
      · exact Or.inl h
      · exact Or.inr ⟨i, List.mem_singleton.mp h⟩

/-- Inserting a key that is already present is ignored. -/
theorem insertOrIgnore_mem {α : Type} (rowId : α → Int) (t : List α) (i : Int)
    (mk : Int → α) (h : i ∈ t.map rowId) :
    insertOrIgnore rowId t (some i) mk = t := by
  simp [insertOrIgnore, h]

/-- Inserting a fresh key appends exactly one row. -/
theorem insertOrIgnore_not_mem {α : Type} (rowId : α → Int) (t : List α) (i : Int)
    (mk : Int → α) (h : i ∉ t.map rowId) :
    insertOrIgnore rowId t (some i) mk = t ++ [mk i] := by
  simp [insertOrIgnore, h]

/-- Two tables whose key columns agree keep agreeing under the paired
`insertOrIgnore` with a common requested key, provided each constructor
stores the key it is given.  This is the both-applied-or-both-skipped
behavior of the paired attribute / index inserts. -/
theorem insertOrIgnore_map_id {α β : Type} (rid1 : α → Int) (rid2 : β → Int)
    (t1 : List α) (t2 : List β) (oid : Option Int) (mk1 : Int → α) (mk2 : Int → β)
    (hmk1 : ∀ i, rid1 (mk1 i) = i) (hmk2 : ∀ i, rid2 (mk2 i) = i)
    (h : t1.map rid1 = t2.map rid2) :
    (insertOrIgnore rid1 t1 oid mk1).map rid1 =
      (insertOrIgnore rid2 t2 oid mk2).map rid2 := by
  cases oid with
  | none => simp [insertOrIgnore, hmk1, hmk2, h]
  | some i =>
    by_cases hm : i ∈ t2.map rid2
    · rw [insertOrIgnore_mem rid1 t1 i mk1 (by rw [h]; exact hm),
          insertOrIgnore_mem rid2 t2 i mk2 hm]
      exact h
    · rw [insertOrIgnore_not_mem rid1 t1 i mk1 (by rw [h]; exact hm),
          insertOrIgnore_not_mem rid2 t2 i mk2 hm]
      simp [hmk1, hmk2, h]

/-- Case analysis of the classification-and-store tail: skip, geo-pair
insert, or POI-pair insert. -/
theorem processClassified_shape (s : LoopState) (props : Props) (lon lat : ℚ) :
    processClassified s props lon lat = s ∨
    (∃ k, classify_geo props = some k ∧
      processClassified s props lon lat =
        { s with db := insertGeoPair s.db (getId props) lat lon k (getTag props "name") props }) ∨
    (classify_geo props = none ∧
      ∃ nm ty sub, deriveName props = some nm ∧ classify props = some (ty, sub) ∧
        processClassified s props lon lat =
          ⟨insertPoiPair s.db (getId props) lat lon ty nm sub props, s.imported + 1⟩) := by
  cases hk : classify_geo props with
  | some k =>
    refine Or.inr (Or.inl ⟨k, rfl, ?_⟩)
    simp [processClassified, hk]
  | none =>
    cases hn : deriveName props with
    | none => exact Or.inl (by simp [processClassified, hk, hn])
    | some nm =>
      cases hc : classify props with
      | none => exact Or.inl (by simp [processClassified, hk, hn, hc])
      | some c =>
        obtain ⟨ty, sub⟩ := c
        refine Or.inr (Or.inr ⟨rfl, nm, ty, sub, rfl, rfl, ?_⟩)
        simp [processClassified, hk, hn, hc]

/-- Case analysis of one loop iteration that did not raise: the record was
skipped, or its classification-and-store tail ran at some coordinates. -/
theorem processRecord_shape (s : LoopState) (r : Record) (s' : LoopState)
    (hp : processRecord s r = some s') :
    s' = s ∨ ∃ lon lat, s' = processClassified s r.props lon lat := by
  obtain ⟨g, props⟩ := r
  cases g with
  | point lon lat =>
    simp only [processRecord, Option.some.injEq] at hp
    exact Or.inr ⟨lon, lat, hp.symm⟩
  | polygon c =>
    simp only [processRecord] at hp
    cases hc : centroid_from_geom (Geom.polygon c) with
    | none => rw [hc] at hp; exact absurd hp (by simp)
    | some p =>
      obtain ⟨lon, lat⟩ := p
      rw [hc] at hp
      simp only [Option.some.injEq] at hp
      exact Or.inr ⟨lon, lat, hp.symm⟩
  | multiPolygon c =>
    simp only [processRecord] at hp
    cases hc : centroid_from_geom (Geom.multiPolygon c) with
    | none => rw [hc] at hp; exact absurd hp (by simp)
    | some p =>
      obtain ⟨lon, lat⟩ := p
      rw [hc] at hp
      simp only [Option.some.injEq] at hp
      exact Or.inr ⟨lon, lat, hp.symm⟩
  | other t =>
    simp only [processRecord, Option.some.injEq] at hp
    exact Or.inl hp.symm

/-- Invariant rule for the record loop: any property preserved by a
non-raising iteration holds for its final state. -/
theorem runLoop_inv (P : LoopState → Prop)
    (hstep : ∀ s r s', P s → processRecord s r = some s' → P s') :
    ∀ (records : List Record) (s0 s : LoopState),
      P s0 → runLoop s0 records = some s → P s := by
  intro records
  induction records with
  | nil =>
    intro s0 s h0 hr
    simp only [runLoop, Option.some.injEq] at hr
    exact hr ▸ h0
  | cons r rs ih =>
    intro s0 s h0 hr
    simp only [runLoop] at hr
    cases hp : processRecord s0 r with
    | none => rw [hp] at hr; exact absurd hr (by simp)
    | some s1 =>
      rw [hp] at hr
      exact ih s1 s (hstep s0 r s1 h0 hp) hr

/-- A nonzero exit of either `osmium` invocation makes `build_region`
propagate the CalledProcessError. -/
theorem build_region_fail (env : ExtractEnv) (region : String)
    (h : env.filterExit region ≠ 0 ∨ env.exportExit region ≠ 0) :
    build_region env region = Except.error "CalledProcessError" := by
  rcases h with h | h
  · simp [build_region, run, h]
  · by_cases hf : env.filterExit region = 0
    · simp [build_region, run, hf, h]
    · simp [build_region, run, hf]

/-! Claim C1. -/

/-- Tag mapping carrying both `historic=castle` and `place=city`. -/
def castleCityProps : Props := [("historic", "castle"), ("place", "city")]

/-- C1, counterexample: the claim says a mapping with both `historic=castle`
and `place=city` classifies as `(1, "castle")` and never as
`(100, "city")`; on the code, `classify` checks the place band first and
returns `(100, "city")` for exactly such a mapping. -/
theorem C1_counterexample :
    classify castleCityProps = some (100, "city") ∧
    some ((100 : Int), "city") ≠ some ((1 : Int), "castle") :=
  ⟨rfl, by decide⟩

/-- C1, amended: `classify` evaluates its bands first-match-wins, but the
place band comes first: every tag mapping with `place=city` — with or
without `historic=castle` — classifies as type code 100, subtype "city",
never as `(1, "castle")`. -/
theorem C1_amended (props : Props) (hc : getTag props "place" = some "city") :
    classify props = some (100, "city") := by
  simp [classify, hc]

/-- C1, witness: the amended theorem applied to the castle-plus-city
mapping. -/
theorem C1_witness : classify castleCityProps = some (100, "city") :=
  C1_amended castleCityProps rfl

/-! Claim C3. -/

/-- The square outer ring of the spec's worked example, as listed:
five vertices, the closing vertex repeating the start. -/
def sqRing : List (ℚ × ℚ) := [(0, 0), (0, 2), (2, 2), (2, 0), (0, 0)]

/-- C3: for every Polygon, `centroid_from_geom` returns the unweighted
arithmetic mean of the outer ring's vertex longitudes and latitudes,
counting the repeated closing vertex; on the square ring
`[(0,0),(0,2),(2,2),(2,0),(0,0)]` this is `(4/5, 4/5)`, i.e. `(0.8, 0.8)`;
and for a MultiPolygon the same mean is taken over the pooled outer-ring
vertices of all constituent polygons. -/
theorem C3_centroid_mean :
    (∀ (ring : List (ℚ × ℚ)) (rest : List (List (ℚ × ℚ))), ring ≠ [] →
      centroid_from_geom (Geom.polygon (ring :: rest)) =
        some ((ring.map Prod.fst).sum / (ring.length : ℚ),
              (ring.map Prod.snd).sum / (ring.length : ℚ))) ∧
    centroid_from_geom (Geom.polygon [sqRing]) = some (4/5, 4/5) ∧
    (∀ (polys : List (List (List (ℚ × ℚ)))) (outers : List (List (ℚ × ℚ))),
      polys.mapM List.head? = some outers → outers.flatten ≠ [] →
      centroid_from_geom (Geom.multiPolygon polys) =
        some ((outers.flatten.map Prod.fst).sum / (outers.flatten.length : ℚ),
              (outers.flatten.map Prod.snd).sum / (outers.flatten.length : ℚ))) := by
  refine ⟨?_, ?_, ?_⟩
  · intro ring rest h
    have hl : ring.length ≠ 0 := fun hc => h (List.length_eq_zero.mp hc)
    show ringMean [ring] = _
    unfold ringMean
    have hfl : ([ring] : List (List (ℚ × ℚ))).flatten = ring := by simp
    rw [hfl, if_neg hl]
  · show ringMean [sqRing] = _
    norm_num [ringMean, sqRing]
  · intro polys outers hm hne
    have hl : outers.flatten.length ≠ 0 := fun hc => hne (List.length_eq_zero.mp hc)
    simp only [centroid_from_geom]
    rw [hm]
    show ringMean outers = _
    unfold ringMean
    rw [if_neg hl]

/-- C3, witness: the Polygon branch applied to the square ring and the
MultiPolygon branch applied to two one-ring polygons whose pooled vertices
average to `(3, 1)`. -/
theorem C3_witness :
    centroid_from_geom (Geom.polygon [sqRing]) = some (4/5, 4/5) ∧
    centroid_from_geom (Geom.multiPolygon [[[(1, 1), (2, 1)]], [[(4, 1), (5, 1)]]]) =
      some (3, 1) := by
  constructor
  · have h := C3_centroid_mean.1 sqRing [] (by decide)
    rw [h]
    norm_num [sqRing]
  · have h := C3_centroid_mean.2.2 [[[(1, 1), (2, 1)]], [[(4, 1), (5, 1)]]]
      [[(1, 1), (2, 1)], [(4, 1), (5, 1)]] rfl (by decide)
    rw [h]
    norm_num

/-! Claim C4. -/

/-- A well-formed cafe record, processed before the faulty one. -/
def okRec : Record := ⟨Geom.point 1 1, [("id", "31"), ("name", "A"), ("amenity", "cafe")]⟩

/-- A second well-formed record, standing after the faulty one in the
extract and therefore never reached. -/
def okRec2 : Record := ⟨Geom.point 2 2, [("id", "32"), ("name", "B"), ("amenity", "pub")]⟩

/-- A Polygon record whose outer ring has zero vertices. -/
def emptyRingRec : Record :=
  ⟨Geom.polygon [[]], [("id", "33"), ("name", "Ghost"), ("amenity", "bar")]⟩

/-- A run whose extract yields a good record, then the empty-ring record,
then another good record. -/
def env4 : ExtractEnv := ⟨fun _ => 0, fun _ => 0, fun _ => [okRec, emptyRingRec, okRec2]⟩

/-- C4: the claim says an empty ring is a recoverable per-record error that
is silently skipped before the division is reached.  On the code the
division-by-zero is reached: processing the record raises (the `none`
embeds the uncaught ZeroDivisionError), the whole region build aborts in
the middle of the extract, and the process exits nonzero — the spec's
required empty-geometry guard is absent. -/
theorem C4_empty_ring_aborts :
    processRecord initState emptyRingRec = none ∧
    build_region env4 "region" = Except.error "ZeroDivisionError" ∧
    mainExit env4 ["region"] = 1 :=
  ⟨rfl, rfl, rfl⟩

/-! Claim C2. -/

/-- C2: geo-feature and POI classification are mutually exclusive.  Any
record whose tags match `classify_geo` and that the loop processes without
raising leaves `pois`, `poi_index` and the imported counter untouched —
such a record is never inserted into the POI tables, even when `classify`
would also match its tags (the geo branch ends in `continue` before the
POI branch is reached). -/
theorem C2_geo_exclusive (s : LoopState) (r : Record) (s' : LoopState)
    (hgeo : classify_geo r.props ≠ none)
    (hp : processRecord s r = some s') :
    s'.db.pois = s.db.pois ∧ s'.db.poi_index = s.db.poi_index ∧
    s'.imported = s.imported := by
  rcases processRecord_shape s r s' hp with rfl | ⟨lon, lat, rfl⟩

  · exact ⟨rfl, rfl, rfl⟩
  rcases processClassified_shape s r.props lon lat with he | ⟨k, hk, he⟩ |
    ⟨hk0, nm, ty, sub, hn, hc, he⟩
  · rw [he]
    exact ⟨rfl, rfl, rfl⟩
  · rw [he]
    exact ⟨rfl, rfl, rfl⟩
  · exact absurd hk0 hgeo

/-- A Point record tagged `natural=peak`, which `classify` would also
accept (nature band, code 50). -/
def peakRec : Record := ⟨Geom.point 3 4, [("id", "7"), ("name", "Snowdon"), ("natural", "peak")]⟩

/-- Loop state after processing `peakRec` from the fresh schema: one
`geo_features` row and one `geo_index` row, nothing else. -/
def peakState : LoopState :=
  ⟨⟨[], [], [⟨7, 4, 3, "peak", some "Snowdon", peakRec.props⟩], [⟨7, 4, 4, 3, 3⟩]⟩, 0⟩

/-- C2, witness: the exclusivity theorem applied to the peak record
processed from the fresh schema. -/
theorem C2_witness :
    peakState.db.pois = initState.db.pois ∧
    peakState.db.poi_index = initState.db.poi_index ∧
    peakState.imported = initState.imported :=
  C2_geo_exclusive initState peakRec peakState (by decide) (by decide)

/-! Claim C5. -/

/-- C5: name synthesis and the name gate.  First, when the `name` tag is
absent and `historic` is `standing_stone`, `megalith` or `stone`, the
display name is the historic value with underscores replaced by spaces and
title-cased; second, that synthesis sends `standing_stone` to
"Standing Stone"; third, a record (not a geo-feature) whose name is
neither present nor derivable is dropped with the state unchanged, before
`classify` can matter; fourth, every `pois` row of any state the loop can
reach from the fresh schema has a non-empty name. -/
theorem C5_name_gate :
    (∀ (props : Props) (h : String), getTag props "name" = none →
      getTag props "historic" = some h →
      h = "standing_stone" ∨ h = "megalith" ∨ h = "stone" →
      deriveName props = some (pyTitle (underscoreToSpace h))) ∧
    pyTitle (underscoreToSpace "standing_stone") = "Standing Stone" ∧
    (∀ (s : LoopState) (r : Record) (s' : LoopState),
      classify_geo r.props = none → deriveName r.props = none →
      processRecord s r = some s' → s' = s) ∧
    (∀ (records : List Record) (s : LoopState),
      runLoop initState records = some s →
      ∀ row ∈ s.db.pois, row.name ≠ "") := by
  refine ⟨?_, by decide, ?_, ?_⟩
  · intro props h hn hh hcases
    rcases hcases with rfl | rfl | rfl <;> · simp only [deriveName, nameStep, hn, hh]; decide
  · intro s r s' hgeo hname hp
    rcases processRecord_shape s r s' hp with rfl | ⟨lon, lat, rfl⟩
    · rfl
    rcases processClassified_shape s r.props lon lat with he | ⟨k, hk, he⟩ |
      ⟨hk0, nm, ty, sub, hn, hc, he⟩
    · exact he
    · rw [hk] at hgeo
      exact Option.noConfusion hgeo
    · rw [hn] at hname
      exact Option.noConfusion hname
  · intro records s hrun
    refine runLoop_inv (fun st => ∀ row ∈ st.db.pois, row.name ≠ "") ?_ records initState s ?_ hrun
    · intro s0 r s1 h0 hp
      rcases processRecord_shape s0 r s1 hp with rfl | ⟨lon, lat, rfl⟩
      · exact h0
      rcases processClassified_shape s0 r.props lon lat with he | ⟨k, hk, he⟩ |
        ⟨hk0, nm, ty, sub, hn, hc, he⟩
      · rw [he]
        exact h0
      · rw [he]
        exact h0
      · rw [he]
        intro row hrow
        rcases mem_insertOrIgnore PoiRow.id s0.db.pois (getId r.props) _ hrow with hold | ⟨i, rfl⟩
        · exact h0 row hold
        · exact deriveName_ne_empty hn
    · intro row hrow
      exact absurd hrow (List.not_mem_nil row)

/-- A Point record with no `name` tag whose `historic=standing_stone` value
makes the pipeline synthesize "Standing Stone" and classify it through the
historic catch-all band (type 7). -/
def stoneRec : Record := ⟨Geom.point 1 2, [("id", "11"), ("historic", "standing_stone")]⟩

/-- The `pois` row the pipeline stores for `stoneRec`. -/
def stoneRow : PoiRow := ⟨11, 2, 1, 7, "Standing Stone", "standing_stone", stoneRec.props⟩

/-- Loop state after processing `stoneRec` from the fresh schema. -/
def stoneState : LoopState := ⟨⟨[stoneRow], [⟨11, 2, 2, 1, 1⟩], [], []⟩, 1⟩

/-- C5, witness: the synthesis branch applied to a mapping holding only
`historic=standing_stone`, and the non-empty-name invariant applied to the
stored row of `stoneRec`. -/
theorem C5_witness :
    deriveName [("historic", "standing_stone")] = some "Standing Stone" ∧
    stoneRow.name ≠ "" := by
  constructor
  · have h := C5_name_gate.1 [("historic", "standing_stone")] "standing_stone" rfl rfl
      (Or.inl rfl)
    rw [h, C5_name_gate.2.1]
  · exact C5_name_gate.2.2.2 [stoneRec] stoneState (by decide) stoneRow (by decide)

/-! Claim C6. -/

/-- A well-formed cafe record whose properties carry no id. -/
def noIdRec : Record := ⟨Geom.point 7 8, [("name", "X"), ("amenity", "cafe")]⟩

/-- Loop state after processing `noIdRec` from the fresh schema: the NULL
key was auto-assigned (1 on an empty table) and the row was stored. -/
def noIdState : LoopState :=
  ⟨⟨[⟨1, 8, 7, 10, "X", "cafe", noIdRec.props⟩], [⟨1, 8, 8, 7, 7⟩], [], []⟩, 1⟩

/-- C6, counterexample: the claim says a record with a missing id results
in no row in any table.  On the code there is no missing-id guard at all:
the inserts run with a NULL key, SQLite auto-assigns the rowid, and the
record lands in `pois` and `poi_index` (and is counted as imported). -/
theorem C6_counterexample :
    runLoop initState [noIdRec] = some noIdState ∧
    noIdState.db.pois.length = 1 ∧
    noIdState.db.poi_index.length = 1 ∧
    noIdState.imported = 1 :=
  ⟨by decide, by decide, by decide, by decide⟩

/-- C6, amended: a record with a missing id does not abort the region
build — the loop continues past it — but it is not skipped either: when
such a record is a named, classifiable Point POI, the inserts execute with
a NULL key, the store auto-assigns an id, and `pois`, `poi_index` and the
imported count each grow by one. -/
theorem C6_amended (s : LoopState) (r : Record) (lon lat : ℚ) (nm : String)
    (ty : Int) (sub : String)
    (hg : r.geom = Geom.point lon lat)
    (hid : getTag r.props "id" = none)
    (hgeo : classify_geo r.props = none)
    (hn : deriveName r.props = some nm)
    (hc : classify r.props = some (ty, sub)) :
    ∃ s', processRecord s r = some s' ∧
      s'.db.pois.length = s.db.pois.length + 1 ∧
      s'.db.poi_index.length = s.db.poi_index.length + 1 ∧
      s'.imported = s.imported + 1 := by
  have hid0 : getId r.props = none := by simp [getId, hid]
  have hpr : processRecord s r = some (processClassified s r.props lon lat) := by
    simp [processRecord, hg]
  have hpc : processClassified s r.props lon lat =
      ⟨insertPoiPair s.db (getId r.props) lat lon ty nm sub r.props, s.imported + 1⟩ := by
    simp [processClassified, hgeo, hn, hc]
  refine ⟨_, hpr, ?_, ?_, ?_⟩ <;> rw [hpc] <;>
    simp [insertPoiPair, insertOrIgnore, hid0]

/-- C6, witness: the amended theorem applied to `noIdRec` processed from
the fresh schema. -/
theorem C6_witness :
    (processRecord initState noIdRec).map
      (fun s => (s.db.pois.length, s.db.poi_index.length, s.imported)) =
      some (1, 1, 1) := by
  obtain ⟨s', hs, h1, h2, h3⟩ := C6_amended initState noIdRec 7 8 "X" 10 "cafe"
    rfl (by decide) (by decide) (by decide) (by decide)
  rw [hs]
  simp [h1, h2, h3, initState, emptyDB]

/-! Claim C7. -/

/-- Sync invariant of the two table pairs: each attribute table lists
exactly the keys of its spatial index, in insertion order. -/
def PairSync (db : DB) : Prop :=
  db.pois.map PoiRow.id = db.poi_index.map IdxRow.id ∧
  db.geo_features.map GeoRow.id = db.geo_index.map IdxRow.id

/-- One non-raising iteration preserves `PairSync`: each branch drives its
attribute insert and its index insert with the same requested key, against
tables with identical key columns. -/
theorem pairSync_step (s : LoopState) (r : Record) (s' : LoopState)
    (hs : PairSync s.db) (hp : processRecord s r = some s') : PairSync s'.db := by
  rcases processRecord_shape s r s' hp with rfl | ⟨lon, lat, rfl⟩
  · exact hs
  rcases processClassified_shape s r.props lon lat with he | ⟨k, hk, he⟩ |
    ⟨hk0, nm, ty, sub, hn, hc, he⟩
  · rw [he]
    exact hs
  · rw [he]
    refine ⟨hs.1, ?_⟩
    simp only [insertGeoPair]
    exact insertOrIgnore_map_id GeoRow.id IdxRow.id s.db.geo_features s.db.geo_index
      (getId r.props) _ _ (fun i => rfl) (fun i => rfl) hs.2
  · rw [he]
    refine ⟨?_, hs.2⟩
    simp only [insertPoiPair]
    exact insertOrIgnore_map_id PoiRow.id IdxRow.id s.db.pois s.db.poi_index
      (getId r.props) _ _ (fun i => rfl) (fun i => rfl) hs.1

/-- A POI-branch record whose present id already occurs in `pois` changes
no table: both inserts of the pair are ignored. -/
theorem dup_noop_poi (s : LoopState) (r : Record) (i : Int) (s' : LoopState)
    (hsync : s.db.pois.map PoiRow.id = s.db.poi_index.map IdxRow.id)
    (hid : getId r.props = some i)
    (hgeo : classify_geo r.props = none)
    (hmem : i ∈ s.db.pois.map PoiRow.id)
    (hp : processRecord s r = some s') :
    s'.db = s.db := by
  rcases processRecord_shape s r s' hp with rfl | ⟨lon, lat, rfl⟩
  · rfl
  rcases processClassified_shape s r.props lon lat with he | ⟨k, hk, he⟩ |
    ⟨hk0, nm, ty, sub, hn, hc, he⟩
  · rw [he]
  · rw [hk] at hgeo
    exact Option.noConfusion hgeo
  · rw [he]
    show insertPoiPair s.db (getId r.props) lat lon ty nm sub r.props = s.db
    rw [hid]
    unfold insertPoiPair
    rw [insertOrIgnore_mem PoiRow.id s.db.pois i _ hmem,
        insertOrIgnore_mem IdxRow.id s.db.poi_index i _ (hsync ▸ hmem)]

/-- A geo-branch record whose present id already occurs in `geo_features`
changes no table: both inserts of the pair are ignored. -/
theorem dup_noop_geo (s : LoopState) (r : Record) (i : Int) (s' : LoopState)
    (hsync : s.db.geo_features.map GeoRow.id = s.db.geo_index.map IdxRow.id)
    (hid : getId r.props = some i)
    (hgeo : classify_geo r.props ≠ none)
    (hmem : i ∈ s.db.geo_features.map GeoRow.id)
    (hp : processRecord s r = some s') :
    s'.db = s.db := by
  rcases processRecord_shape s r s' hp with rfl | ⟨lon, lat, rfl⟩
  · rfl
  rcases processClassified_shape s r.props lon lat with he | ⟨k, hk, he⟩ |
    ⟨hk0, nm, ty, sub, hn, hc, he⟩
  · rw [he]
  · rw [he]
    show insertGeoPair s.db (getId r.props) lat lon k (getTag r.props "name") r.props = s.db
    rw [hid]
    unfold insertGeoPair
    rw [insertOrIgnore_mem GeoRow.id s.db.geo_features i _ hmem,
        insertOrIgnore_mem IdxRow.id s.db.geo_index i _ (hsync ▸ hmem)]
  · exact absurd hk0 hgeo

/-- C7, amended: within each table pair the attribute insert and the index
insert are always both applied or both skipped — from the fresh schema the
key column of `pois` always equals that of `poi_index`, and likewise for
`geo_features` / `geo_index` — and a second record repeating an id already
stored in the table pair it targets produces no rows at all.  (The original
claim fails across pairs: a duplicate id can appear once in `pois` and once
in `geo_features` when the two records classify differently.) -/
theorem C7_amended (records : List Record) (s : LoopState)
    (h : runLoop initState records = some s) :
    (s.db.pois.map PoiRow.id = s.db.poi_index.map IdxRow.id ∧
     s.db.geo_features.map GeoRow.id = s.db.geo_index.map IdxRow.id) ∧
    (∀ (r : Record) (i : Int) (s' : LoopState),
      getId r.props = some i → processRecord s r = some s' →
      ((classify_geo r.props = none → i ∈ s.db.pois.map PoiRow.id → s'.db = s.db) ∧
       (classify_geo r.props ≠ none → i ∈ s.db.geo_features.map GeoRow.id → s'.db = s.db))) := by
  have hsync : PairSync s.db :=
    runLoop_inv (fun st => PairSync st.db)
      (fun s0 r s1 h0 hp => pairSync_step s0 r s1 h0 hp)
      records initState s ⟨rfl, rfl⟩ h
  refine ⟨⟨hsync.1, hsync.2⟩, ?_⟩
  intro r i s' hid hp
  constructor
  · intro hgeo hmem
    exact dup_noop_poi s r i s' hsync.1 hid hgeo hmem hp
  · intro hgeo hmem
    exact dup_noop_geo s r i s' hsync.2 hid hgeo hmem hp

/-- First record with id 5, a POI. -/
def dupA : Record := ⟨Geom.point 1 1, [("id", "5"), ("name", "First"), ("amenity", "cafe")]⟩

/-- Second record with the same id 5, also a POI. -/
def dupB : Record := ⟨Geom.point 2 2, [("id", "5"), ("name", "Second"), ("amenity", "pub")]⟩

/-- Loop state after processing `dupA` from the fresh schema. -/
def dupState : LoopState :=
  ⟨⟨[⟨5, 1, 1, 10, "First", "cafe", dupA.props⟩], [⟨5, 1, 1, 1, 1⟩], [], []⟩, 1⟩

/-- Loop state after additionally processing the duplicate `dupB`: the same
tables (both inserts ignored), while the imported counter still moved. -/
def dupState2 : LoopState :=
  ⟨⟨[⟨5, 1, 1, 10, "First", "cafe", dupA.props⟩], [⟨5, 1, 1, 1, 1⟩], [], []⟩, 2⟩

/-- C7, witness: the amended theorem applied after one record, and its
duplicate-skip part applied to the same-id record `dupB`. -/
theorem C7_witness :
    dupState.db.pois.map PoiRow.id = dupState.db.poi_index.map IdxRow.id ∧
    dupState2.db = dupState.db := by
  have h := C7_amended [dupA] dupState (by decide)
  exact ⟨h.1.1, (h.2 dupB 5 dupState2 (by decide) (by decide)).1 (by decide) (by decide)⟩

/-- First record with id 5, stored as a POI (`place=town`). -/
def dupTownRec : Record :=
  ⟨Geom.point 1 1, [("id", "5"), ("name", "Town A"), ("place", "town")]⟩

/-- Second record with the same id 5, classified as a geo-feature
(`place=island`). -/
def dupIsleRec : Record :=
  ⟨Geom.point 2 2, [("id", "5"), ("name", "Isle B"), ("place", "island")]⟩

/-- Resulting state: both records produced rows. -/
def crossState : LoopState :=
  ⟨⟨[⟨5, 1, 1, 101, "Town A", "town", dupTownRec.props⟩], [⟨5, 1, 1, 1, 1⟩],
    [⟨5, 2, 2, "island", some "Isle B", dupIsleRec.props⟩], [⟨5, 2, 2, 2, 2⟩]⟩, 1⟩

/-- C7, counterexample: the claim says that for every pair of records
sharing an id only the first occurrence produces rows.  Here two records
share id 5; the first is stored in `pois`/`poi_index`, yet the second still
produces rows — in `geo_features` and `geo_index` — because the geo tables
had no conflicting key. -/
theorem C7_counterexample :
    runLoop initState [dupTownRec, dupIsleRec] = some crossState ∧
    crossState.db.pois.map PoiRow.id = [5] ∧
    crossState.db.geo_features.map GeoRow.id = [5] ∧
    crossState.db.geo_features ≠ [] :=
  ⟨by decide, by decide, by decide, by decide⟩

/-! Claim C8. -/

/-- Valid POI record number one. -/
def rec1 : Record := ⟨Geom.point 10 50, [("id", "1"), ("name", "Cafe One"), ("amenity", "cafe")]⟩

/-- Valid POI record number two. -/
def rec2 : Record := ⟨Geom.point 11 51, [("id", "2"), ("name", "Pub Two"), ("amenity", "pub")]⟩

/-- Valid POI record number three. -/
def rec3 : Record :=
  ⟨Geom.point 12 52, [("id", "3"), ("name", "Castle Three"), ("historic", "castle")]⟩

/-- The geo-feature record. -/
def rec4 : Record := ⟨Geom.point 13 53, [("id", "4"), ("name", "Isle Four"), ("place", "island")]⟩

/-- The unnamed record with no derivable name (no `name` tag, no historic
synthesis value). -/
def rec5 : Record := ⟨Geom.point 14 54, [("id", "5"), ("amenity", "cafe")]⟩

/-- The duplicate-id record: it repeats id 1 and is itself a well-formed,
named, classifiable POI. -/
def rec6 : Record := ⟨Geom.point 15 55, [("id", "1"), ("name", "Cafe Dup"), ("amenity", "bar")]⟩

/-- The synthetic extract of the end-to-end claim: 3 valid POI records, 1
geo-feature record, 1 unnamed record, 1 duplicate-id record. -/
def recs8 : List Record := [rec1, rec2, rec3, rec4, rec5, rec6]

/-- A run whose single region exports `recs8`. -/
def env8 : ExtractEnv := ⟨fun _ => 0, fun _ => 0, fun _ => recs8⟩

/-- The tables the build of `recs8` commits. -/
def db8 : DB :=
  ⟨[⟨1, 50, 10, 10, "Cafe One", "cafe", rec1.props⟩,
    ⟨2, 51, 11, 11, "Pub Two", "pub", rec2.props⟩,
    ⟨3, 52, 12, 1, "Castle Three", "castle", rec3.props⟩],
   [⟨1, 50, 50, 10, 10⟩, ⟨2, 51, 51, 11, 11⟩, ⟨3, 52, 52, 12, 12⟩],
   [⟨4, 53, 13, "island", some "Isle Four", rec4.props⟩],
   [⟨4, 53, 53, 13, 13⟩]⟩

/-- C8, counterexample: on the claimed extract shape the store does hold
exactly 3 `pois` rows with 3 `poi_index` rows and 1 `geo_features` row with
1 `geo_index` row, but the reported imported count is 4, not 3: the counter
increments after the duplicate record's ignored inserts as well. -/
theorem C8_counterexample :
    build_region env8 "region" = Except.ok (db8, 4) ∧
    db8.pois.length = 3 ∧ db8.poi_index.length = 3 ∧
    db8.geo_features.length = 1 ∧ db8.geo_index.length = 1 ∧
    (4 : Nat) ≠ 3 :=
  ⟨rfl, rfl, rfl, rfl, rfl, by decide⟩

/-- C8, amended: end-to-end on the synthetic extract the store contains
exactly 3 `pois` rows (ids 1, 2, 3 — the first occurrence of the duplicate
id wins) with the 3 matching `poi_index` rows, and 1 `geo_features` row
(id 4) with its matching `geo_index` row; the reported imported count is 4,
because the duplicate-id record increments the counter even though both of
its inserts are ignored. -/
theorem C8_amended :
    build_region env8 "region" = Except.ok (db8, 4) ∧
    db8.pois.map PoiRow.id = [1, 2, 3] ∧
    db8.poi_index.map IdxRow.id = [1, 2, 3] ∧
    db8.geo_features.map GeoRow.id = [4] ∧
    db8.geo_index.map IdxRow.id = [4] ∧
    db8.pois.map PoiRow.name = ["Cafe One", "Pub Two", "Castle Three"] :=
  ⟨rfl, rfl, rfl, rfl, rfl, rfl⟩

/-! Claim C9. -/

/-- C9: when an `osmium` invocation (filter or export) exits nonzero for a
region, the run is fail-fast — the regions before it complete and are the
only ones that produce output, the failing region's build aborts with the
propagated CalledProcessError and is not retried, no later region is
processed, and the process exit status is nonzero. -/
theorem C9_fail_fast (env : ExtractEnv) (pre : List String) (bad : String)
    (post : List String)
    (hpre : ∀ r ∈ pre, ∃ o, build_region env r = Except.ok o)
    (hbad : env.filterExit bad ≠ 0 ∨ env.exportExit bad ≠ 0) :
    (mainRun env (pre ++ bad :: post)).1.map Prod.fst = pre ∧
    (mainRun env (pre ++ bad :: post)).2 = some "CalledProcessError" ∧
    mainExit env (pre ++ bad :: post) ≠ 0 := by
  have hb := build_region_fail env bad hbad
  induction pre with
  | nil =>
    refine ⟨?_, ?_, ?_⟩
    · simp [mainRun, hb]
    · simp [mainRun, hb]
    · simp [mainExit, mainRun, hb]
  | cons p ps ih =>
    obtain ⟨o, ho⟩ := hpre p (by simp)
    have ih2 := ih (fun r hr => hpre r (by simp [hr]))
    refine ⟨?_, ?_, ?_⟩
    · simp [mainRun, ho, ih2.1]
    · simp [mainRun, ho, ih2.2.1]
    · simp [mainExit, mainRun, ho, ih2.2.1]

/-- A run whose region "bad" fails its filter invocation with exit code 1,
while every other region succeeds on the `okRec` extract. -/
def env9 : ExtractEnv :=
  ⟨fun r => if r == "bad" then 1 else 0, fun _ => 0, fun _ => [okRec]⟩

/-- C9, witness: the fail-fast theorem applied to the run
`["good", "bad", "never"]` of `env9`. -/
theorem C9_witness :
    (mainRun env9 ["good", "bad", "never"]).1.map Prod.fst = ["good"] ∧
    (mainRun env9 ["good", "bad", "never"]).2 = some "CalledProcessError" ∧
    mainExit env9 ["good", "bad", "never"] ≠ 0 := by
  have h := C9_fail_fast env9 ["good"] "bad" ["never"]
    (by
      intro r hr
      simp only [List.mem_singleton] at hr
      subst hr
      exact ⟨_, rfl⟩)
    (Or.inl (by decide))
  exact h

/-! Claim C10. -/

/-- C10: every row either spatial index ever holds has `minLat = maxLat`
and `minLon = maxLon` — both index inserts always repeat the record's
single reduced point, so the index never records an area feature's true
bounding-box extent. -/
theorem C10_point_extent (records : List Record) (s : LoopState)
    (h : runLoop initState records = some s) :
    (∀ e ∈ s.db.poi_index, e.minLat = e.maxLat ∧ e.minLon = e.maxLon) ∧
    (∀ e ∈ s.db.geo_index, e.minLat = e.maxLat ∧ e.minLon = e.maxLon) := by
  refine runLoop_inv (fun st =>
      (∀ e ∈ st.db.poi_index, e.minLat = e.maxLat ∧ e.minLon = e.maxLon) ∧
      (∀ e ∈ st.db.geo_index, e.minLat = e.maxLat ∧ e.minLon = e.maxLon))
    ?_ records initState s ?_ h
  · intro s0 r s1 h0 hp
    rcases processRecord_shape s0 r s1 hp with rfl | ⟨lon, lat, rfl⟩
    · exact h0
    rcases processClassified_shape s0 r.props lon lat with he | ⟨k, hk, he⟩ |
      ⟨hk0, nm, ty, sub, hn, hc, he⟩
    · rw [he]
      exact h0
    · rw [he]
      refine ⟨h0.1, ?_⟩
      intro e he2
      rcases mem_insertOrIgnore IdxRow.id s0.db.geo_index (getId r.props) _ he2 with
        hold | ⟨i, rfl⟩
      · exact h0.2 e hold
      · exact ⟨rfl, rfl⟩
    · rw [he]
      refine ⟨?_, h0.2⟩
      intro e he2
      rcases mem_insertOrIgnore IdxRow.id s0.db.poi_index (getId r.props) _ he2 with
        hold | ⟨i, rfl⟩
      · exact h0.1 e hold
      · exact ⟨rfl, rfl⟩
  · exact ⟨fun e he => absurd he (List.not_mem_nil e),
           fun e he => absurd he (List.not_mem_nil e)⟩

/-- The `geo_index` row stored for `peakRec`. -/
def peakIdx : IdxRow := ⟨7, 4, 4, 3, 3⟩

/-- C10, witness: the point-extent theorem applied to the run of
`[peakRec]` and its stored index row. -/
theorem C10_witness :
    peakIdx.minLat = peakIdx.maxLat ∧ peakIdx.minLon = peakIdx.maxLon := by
  have h := C10_point_extent [peakRec] peakState (by decide)
  exact h.2 peakIdx (by decide)

end BuildPoiDb
